import Mathlib

/-!
Verification of the RAG chatbot retrieval-decision pipeline.

This file is a shallow embedding of the decision core of the repository:
the hybrid domain classifier (`domain_classifier.py`), the reranker
(`reranker.py`), the retrieval evaluator (`retriever_evaluator.py`) and the
fallback router / main pipeline (`main.py`).

Modelling conventions:
- Similarity scores, thresholds and metric values are rationals.
- External collaborators (embedding models, the LLM, the vector store, the
  web search API) are opaque deterministic oracles collected in an `Env`
  structure; the pipeline is a pure function of the environment and the
  query.
- The pipeline is instrumented with a list of `Event`s recording which
  collaborators were invoked, in call order, so that claims about which
  components run on which path can be stated.
- A Python float division that can raise `ZeroDivisionError` is modelled
  with an `Option` result (`none` = the exception).
-/

namespace RagChatbot

/-- Domain labels. `llm_classify` in `domain_classifier.py` normalizes every
LLM response into this closed set, so the classifier output is always one of
these three values. -/
inductive Domain where
  | Education
  | Healthcare
  | Other
deriving DecidableEq

/-- Model of the Python string method `lower` (ASCII case folding, which is
all the sentinel comparison in `main.py` needs). -/
def pyLower (s : String) : String :=
  String.mk (s.data.map Char.toLower)

/-- Model of the Python string method `strip`: drop leading and trailing
whitespace. -/
def pyStrip (s : String) : String :=
  String.mk (((s.data.dropWhile Char.isWhitespace).reverse.dropWhile Char.isWhitespace).reverse)

/-- `should_fallback(similarity_scores, threshold)` from `main.py`:
`True` when the list is empty, otherwise `max(similarity_scores) < threshold`.
The Python `max` over a nonempty list is the fold of the binary max of the
head over the tail. -/
def should_fallback (similarity_scores : List ℚ) (threshold : ℚ) : Bool :=
  match similarity_scores with
  | [] => true
  | s :: rest => decide (rest.foldl max s < threshold)

/-- Loop body of `build_smart_context` from `main.py`: iterate over the
chunks, breaking at the first chunk for which
`len(context) + len(chunk) > max_chars`; otherwise append
`chunk + "\n\n"` to the accumulated context. The `used` counter of the
source only feeds a diagnostic print and is omitted. -/
def build_smart_context_go (max_chars : ℕ) : List String → String → String
  | [], context => context
  | chunk :: rest, context =>
    if max_chars < context.length + chunk.length then context
    else build_smart_context_go max_chars rest (context ++ chunk ++ "\n\n")

/-- `build_smart_context(chunks, max_chars)` from `main.py` (the pipeline
always calls it with the default `max_chars = 3000`). -/
def build_smart_context (chunks : List String) (max_chars : ℕ) : String :=
  build_smart_context_go max_chars chunks ""

/-- Specification helper: the concatenation `c0 ++ "\n\n" ++ c1 ++ "\n\n" ++ …`
of a list of chunks, each followed by the two-character separator. -/
def joinSep : List String → String
  | [] => ""
  | chunk :: rest => chunk ++ "\n\n" ++ joinSep rest

/-- Specification helper: the number of chunks `build_smart_context` includes,
computed from the running context length `used` (each included chunk advances
the context by its length plus the two separator characters). -/
def greedyCount (max_chars : ℕ) : List String → ℕ → ℕ
  | [], _ => 0
  | chunk :: rest, used =>
    if max_chars < used + chunk.length then 0
    else 1 + greedyCount max_chars rest (used + chunk.length + 2)

/-- `rerank_chunks(query, chunks, top_k)` from `reranker.py`: score each
`(query, chunk)` pair with the cross-encoder (here the opaque oracle
`predict`), sort descending by score, truncate to `top_k`, drop the scores.
The Python `sorted(..., reverse=True)` is a stable descending sort, which is
exactly `List.mergeSort` with the comparison
`le a b = (predict query b ≤ predict query a)`. -/
def rerank_chunks (predict : String → String → ℚ) (query : String)
    (chunks : List String) (top_k : ℕ) : List String :=
  (chunks.mergeSort (fun a b => decide (predict query b ≤ predict query a))).take top_k

/-- `is_relevant(query, chunk, threshold)` from `retriever_evaluator.py`:
cosine similarity of the two embeddings, compared against the threshold.
The composition of the embedder and the cosine is the opaque oracle `sim`. -/
def is_relevant (sim : String → String → ℚ) (query chunk : String)
    (threshold : ℚ) : Bool × ℚ :=
  (decide (threshold ≤ sim query chunk), sim query chunk)

/-- `precision_at_k` from `retriever_evaluator.py`: `0.0` on an empty list,
otherwise the number of relevant chunks among the first `k`, divided by `k`.
The division raises `ZeroDivisionError` in Python when `k = 0`, modelled as
`none`. -/
def precision_at_k (sim : String → String → ℚ) (query : String)
    (retrieved_chunks : List String) (k : ℕ) (threshold : ℚ) : Option ℚ :=
  if retrieved_chunks = [] then some 0
  else
    let relevant_count : ℕ :=
      (retrieved_chunks.take k).countP (fun c => (is_relevant sim query c threshold).1)
    if k = 0 then none else some ((relevant_count : ℚ) / (k : ℚ))

/-- `recall_at_k` from `retriever_evaluator.py`: `0.0` on an empty list,
otherwise the number of relevant chunks among the first `k`, divided by
`min(k, len(retrieved_chunks))`. The division raises `ZeroDivisionError` in
Python when that minimum is `0`, modelled as `none`. -/
def recall_at_k (sim : String → String → ℚ) (query : String)
    (retrieved_chunks : List String) (k : ℕ) (threshold : ℚ) : Option ℚ :=
  if retrieved_chunks = [] then some 0
  else
    let relevant_count : ℕ :=
      (retrieved_chunks.take k).countP (fun c => (is_relevant sim query c threshold).1)
    let denom := min k retrieved_chunks.length
    if denom = 0 then none else some ((relevant_count : ℚ) / (denom : ℚ))

/-- Loop of `mrr_score`: walk the chunks with a 1-based rank, returning
`1 / rank` at the first relevant chunk. -/
def mrr_go (sim : String → String → ℚ) (query : String) (threshold : ℚ) :
    ℕ → List String → ℚ
  | _, [] => 0
  | rank, chunk :: rest =>
    if (is_relevant sim query chunk threshold).1 then 1 / (rank : ℚ)
    else mrr_go sim query threshold (rank + 1) rest

/-- `mrr_score` from `retriever_evaluator.py`: reciprocal rank of the first
relevant chunk, `0.0` when none is relevant. -/
def mrr_score (sim : String → String → ℚ) (query : String)
    (retrieved_chunks : List String) (threshold : ℚ) : ℚ :=
  mrr_go sim query threshold 1 retrieved_chunks

/-- `classify_medical_domain(query, emb_threshold, health_emb_fallback)` from
`domain_classifier.py`. The two embedding similarities are the opaque inputs
`edu_score` and `health_score`; `llm` is the (deterministic, temperature 0)
result of `llm_classify(query)`, already normalized into `Domain`. The second
component counts how many times `llm_classify` is invoked on the run:

- `edu_score >= emb_threshold`: one call; if it returns Education, return
  Education. Otherwise fall through to the Healthcare guard, and if that also
  fails, a second call decides the result.
- otherwise: Healthcare guard first (no call), else one call decides. -/
def classify_medical_domain (llm : Domain) (edu_score health_score : ℚ)
    (emb_threshold health_emb_fallback : ℚ) : Domain × ℕ :=
  if emb_threshold ≤ edu_score then
    if llm = Domain.Education then (Domain.Education, 1)
    else if health_emb_fallback ≤ health_score then (Domain.Healthcare, 1)
    else (llm, 2)
  else if health_emb_fallback ≤ health_score then (Domain.Healthcare, 0)
  else (llm, 1)

/-- `DOMAIN_MAP` from `main.py`. The `Other` case is unreachable: the
pipeline returns the refusal message before the lookup. -/
def DOMAIN_MAP : Domain → String
  | Domain.Education => "education_pdfs"
  | Domain.Healthcare => "healthcare_pdfs"
  | Domain.Other => ""

/-- Collaborator calls made by one pipeline run, in call order. -/
inductive Event where
  | classifyCall
  | searchCall
  | rerankCall
  | generateCall
  | webSearchCall
  | answerFromWebCall
deriving DecidableEq

/-- The retriever metric triple computed on the vector-DB branch. -/
structure Metrics where
  precision : Option ℚ
  recallK : Option ℚ
  mrr : ℚ
deriving DecidableEq

/-- The external collaborators of the pipeline, as deterministic oracles:
`classify` is `classify_medical_domain` (whole component, opaque here),
`search` is `search_vector_db` (query, index name, top_k) returning
positionally aligned chunks and scores, `predict` the cross-encoder,
`generate_answer` and `answer_from_web` the two LLM answer prompts,
`tavily` the raw web-search client (a transport failure is `Except.error`,
a successful response is the list of result content strings), and `relSim`
the embedding-similarity oracle used by the retrieval evaluator. -/
structure Env where
  classify : String → Domain
  search : String → String → ℕ → List String × List ℚ
  predict : String → String → ℚ
  generate_answer : String → String → String
  tavily : String → Except String (List String)
  answer_from_web : String → String → String
  relSim : String → String → ℚ

/-- `tavily_search(query, max_results)` from `main.py`: on a transport error
the handler prints a warning and returns the empty string; on success it
joins the result contents with newlines, returning the empty string for an
empty result list. -/
def tavily_search (env : Env) (query : String) : String :=
  match env.tavily query with
  | Except.error _ => ""
  | Except.ok results =>
    if results = [] then "" else String.intercalate "\n" results

/-- Result of one pipeline run: the formatted output string the function
returns, plus the instrumentation fields (`source` and `answer` mirror the
local variables of `ask_question`; `metrics` is the metric dict, `none`
when it stays empty; `events` the collaborator calls). -/
structure RunResult where
  output : String
  source : String
  answer : String
  metrics : Option Metrics
  events : List Event
deriving DecidableEq

/-- The web-search fallback block shared by lines 117-123 and 130-136 of
`main.py`: run `tavily_search`; with text, answer from the web with source
`"Web Search"`; otherwise the fixed no-information message with source
`"No Source"`. Returns (answer, source, events). -/
def web_fallback (env : Env) (query : String) : String × String × List Event :=
  let web_context := tavily_search env query
  if web_context ≠ "" then
    (env.answer_from_web query web_context, "Web Search",
      [Event.webSearchCall, Event.answerFromWebCall])
  else
    ("❌ I could not find any relevant information online.", "No Source",
      [Event.webSearchCall])

/-- Rendering of a metric value in the output block. The source formats the
float with two decimals; decimal formatting is abstracted here as the exact
rational printed as `num/den`. -/
def format_metric (q : ℚ) : String :=
  toString q.num ++ "/" ++ toString q.den

/-- Rendering of an optional metric value; on the display path the value is
always present (the pipeline only displays metrics it computed). -/
def format_metric_opt : Option ℚ → String
  | none => ""
  | some q => format_metric q

/-- The metrics block appended to the output when the source is the vector
DB (lines 151-156 of `main.py`). -/
def format_metrics_block (m : Metrics) : String :=
  "\n📊 Retriever Metrics (DB only):\nPrecision@k: " ++ format_metric_opt m.precision ++
    "\nRecall@k: " ++ format_metric_opt m.recallK ++
    "\nMRR: " ++ format_metric m.mrr ++ "\n"

/-- Output assembly of `ask_question` (lines 141-159 of `main.py`): the
header shows the domain index name when the source is the vector DB and the
source tag otherwise; the metrics block is appended only when the source is
the vector DB and the metric dict is nonempty. -/
def mk_result (domain_db answer source : String) (metrics : Option Metrics)
    (events : List Event) : RunResult :=
  let base := "\n----------------------------\n✅ SOURCE USED: " ++
    (if source = "Vector DB" then domain_db else source) ++
    "\n\n💬 ANSWER:\n" ++ answer ++ "\n"
  let withMetrics :=
    match metrics with
    | some m => if source = "Vector DB" then base ++ format_metrics_block m else base
    | none => base
  { output := withMetrics ++ "----------------------------",
    source := source, answer := answer, metrics := metrics, events := events }

/-- The canonical sentinel, lowercased as on line 115 of `main.py`. -/
def sentinelLower : String := "i could not find this in uploaded pdfs."

/-- `ask_question(query, top_k, db_sim_threshold)` from `main.py`:
classification, refusal for `Other`, vector search, reranking, the
confidence-gated choice between the vector-DB branch (context build, answer
generation, metric computation, sentinel-triggered escalation to web search)
and the direct web-search branch, and output assembly. -/
def ask_question (env : Env) (query : String) (top_k : ℕ)
    (db_sim_threshold : ℚ) : RunResult :=
  let domain_result := env.classify query
  if domain_result = Domain.Other then
    { output := "🙂 This assistant only answers medical education and healthcare questions.",
      source := "", answer := "", metrics := none, events := [Event.classifyCall] }
  else
    let domain_db := DOMAIN_MAP domain_result
    let res := env.search query domain_db top_k
    let retrieved_chunks := res.1
    let similarity_scores := res.2
    let reranked_chunks :=
      if retrieved_chunks ≠ [] then rerank_chunks env.predict query retrieved_chunks top_k
      else []
    let base_events := [Event.classifyCall, Event.searchCall] ++
      (if retrieved_chunks ≠ [] then [Event.rerankCall] else [])
    if reranked_chunks ≠ [] ∧ should_fallback similarity_scores db_sim_threshold = false then
      let context := build_smart_context reranked_chunks 3000
      let answer := env.generate_answer query context
      let metrics : Metrics :=
        { precision := precision_at_k env.relSim query reranked_chunks top_k db_sim_threshold,
          recallK := recall_at_k env.relSim query reranked_chunks top_k db_sim_threshold,
          mrr := mrr_score env.relSim query reranked_chunks db_sim_threshold }
      if pyLower (pyStrip answer) = sentinelLower then
        let fb := web_fallback env query
        mk_result domain_db fb.1 fb.2.1 (some metrics)
          (base_events ++ [Event.generateCall] ++ fb.2.2)
      else
        mk_result domain_db answer "Vector DB" (some metrics)
          (base_events ++ [Event.generateCall])
    else
      let fb := web_fallback env query
      mk_result domain_db fb.1 fb.2.1 none (base_events ++ fb.2.2)

end RagChatbot

namespace RagChatbot

/-! ## Classifier claims -/

/-- C2: the domain classifier is an ordered first-match-wins guard chain:
with Education similarity at or above the embedding threshold and the LLM
arbitration confirming Education, the result is Education immediately,
regardless of the Healthcare similarity; whenever the first guard does not
return, a Healthcare similarity at or above its (higher) threshold yields
Healthcare; in particular, for Education similarity below the threshold and
Healthcare similarity at or above its threshold, the result is Healthcare
with zero LLM calls; and with both guards failing the result is the LLM
classification. -/
theorem classifier_guard_chain (llm : Domain) (edu health te th : ℚ) :
    (te ≤ edu → llm = Domain.Education →
      classify_medical_domain llm edu health te th = (Domain.Education, 1)) ∧
    (¬ (te ≤ edu ∧ llm = Domain.Education) → th ≤ health →
      (classify_medical_domain llm edu health te th).1 = Domain.Healthcare) ∧
    (edu < te → th ≤ health →
      classify_medical_domain llm edu health te th = (Domain.Healthcare, 0)) ∧
    (edu < te → health < th →
      classify_medical_domain llm edu health te th = (llm, 1)) := by
  refine ⟨?_, ?_, ?_, ?_⟩
  · intro h1 h2
    simp [classify_medical_domain, h1, h2]
  · intro h1 h2
    by_cases he : te ≤ edu
    · have hllm : llm ≠ Domain.Education := fun h => h1 ⟨he, h⟩
      simp [classify_medical_domain, he, hllm, h2]
    · simp [classify_medical_domain, he, h2]
  · intro h1 h2
    simp [classify_medical_domain, not_le.mpr h1, h2]
  · intro h1 h2
    simp [classify_medical_domain, not_le.mpr h1, not_le.mpr h2]

/-- C2 witness: the scenario of the spec, Education similarity 0.1 below the
default threshold 0.2 and Healthcare similarity 0.5 at or above the default
0.45, resolves to Healthcare with zero LLM calls. -/
theorem classifier_guard_chain_witness :
    classify_medical_domain Domain.Other (1/10) (1/2) (1/5) (9/20) =
      (Domain.Healthcare, 0) :=
  (classifier_guard_chain Domain.Other (1/10) (1/2) (1/5) (9/20)).2.2.1
    (by norm_num) (by norm_num)

/-! ## Reranker claims -/

/-- C7: the reranker returns min(top_k, len(chunks)) chunks; its output is
the top_k-prefix of the full stable descending sort; chunks with equal
cross-encoder scores keep their source order in the full sort (stability);
and reapplying the reranker to its own output with the same query and top_k
returns the same sequence (idempotence, with the deterministic scoring
oracle `predict`). -/
theorem rerank_contract (predict : String → String → ℚ) (query : String)
    (chunks : List String) (top_k : ℕ) :
    (rerank_chunks predict query chunks top_k).length = min top_k chunks.length ∧
    rerank_chunks predict query chunks top_k =
      (rerank_chunks predict query chunks chunks.length).take top_k ∧
    (∀ a b, predict query a = predict query b → [a, b].Sublist chunks →
      [a, b].Sublist (rerank_chunks predict query chunks chunks.length)) ∧
    rerank_chunks predict query (rerank_chunks predict query chunks top_k) top_k =
      rerank_chunks predict query chunks top_k := by
  have trans : ∀ a b c : String,
      (fun a b => decide (predict query b ≤ predict query a)) a b →
      (fun a b => decide (predict query b ≤ predict query a)) b c →
      (fun a b => decide (predict query b ≤ predict query a)) a c := by
    intro a b c hab hbc
    simp only [decide_eq_true_eq] at *
    exact le_trans hbc hab
  have total : ∀ a b : String,
      ((fun a b => decide (predict query b ≤ predict query a)) a b ||
       (fun a b => decide (predict query b ≤ predict query a)) b a) := by
    intro a b
    simp only [Bool.or_eq_true, decide_eq_true_eq]
    exact le_total _ _
  have hfull : rerank_chunks predict query chunks chunks.length =
      chunks.mergeSort (fun a b => decide (predict query b ≤ predict query a)) := by
    unfold rerank_chunks
    exact List.take_of_length_le (le_of_eq (List.length_mergeSort _))
  refine ⟨?_, ?_, ?_, ?_⟩
  · simp [rerank_chunks, List.length_take, List.length_mergeSort]
  · rw [hfull]
    rfl
  · intro a b hscore hsub
    rw [hfull]
    refine List.pair_sublist_mergeSort trans total ?_ hsub
    simp [hscore]
  · unfold rerank_chunks
    have hsorted : (chunks.mergeSort
        (fun a b => decide (predict query b ≤ predict query a))).Pairwise
        (fun a b => decide (predict query b ≤ predict query a) = true) := by
      simpa using List.sorted_mergeSort trans total chunks
    have htake : ((chunks.mergeSort
        (fun a b => decide (predict query b ≤ predict query a))).take top_k).Pairwise
        (fun a b => decide (predict query b ≤ predict query a) = true) :=
      hsorted.sublist (List.take_sublist _ _)
    rw [List.mergeSort_of_sorted htake]
    exact List.take_of_length_le (le_trans (List.length_take_le _ _) (le_refl _))

/-- C7 witness: on two chunks of equal score the reranker keeps the source
order. -/
theorem rerank_contract_witness :
    [ "ab", "cd" ].Sublist
      (rerank_chunks (fun _ s => ((s.length : ℚ))) "q" ["ab", "cd"]
        (["ab", "cd"].length)) :=
  (rerank_contract (fun _ s => ((s.length : ℚ))) "q" ["ab", "cd"] 2).2.2.1
    "ab" "cd" rfl (List.Sublist.refl _)

end RagChatbot

namespace RagChatbot

/-! ## Retrieval evaluator claims -/

/-- Walking `mrr_go` from any starting rank: the result is 0 when no chunk is
relevant, and the reciprocal of (index of the first relevant chunk + starting
rank) otherwise. -/
theorem mrr_go_spec (sim : String → String → ℚ) (query : String) (t : ℚ)
    (l : List String) : ∀ (rank : ℕ),
    (l.any (fun c => (is_relevant sim query c t).1) = false →
      mrr_go sim query t rank l = 0) ∧
    (l.any (fun c => (is_relevant sim query c t).1) = true →
      mrr_go sim query t rank l =
        1 / ((l.findIdx (fun c => (is_relevant sim query c t).1) : ℚ) + rank)) := by
  induction l with
  | nil => intro rank; simp [mrr_go]
  | cons c rest ih =>
    intro rank
    by_cases hc : (is_relevant sim query c t).1 = true
    · refine ⟨fun h => ?_, fun _ => ?_⟩
      · simp [hc] at h
      · simp [mrr_go, hc, List.findIdx_cons]
    · have hc' : (is_relevant sim query c t).1 = false := by
        simpa using hc
      refine ⟨fun h => ?_, fun h => ?_⟩
      · simp only [List.any_cons, Bool.or_eq_false_iff] at h
        simp [mrr_go, hc', (ih (rank + 1)).1 h.2]
      · simp only [List.any_cons, hc', Bool.false_or] at h
        have hrec := (ih (rank + 1)).2 h
        simp only [mrr_go, hc', if_neg, Bool.false_eq_true, if_false, hrec,
          List.findIdx_cons, cond_false]
        push_cast
        ring_nf

/-- C8 amended: with `k ≥ 1` all the stated formulas hold. `precision_at_k`
is (relevant among the first k) / k, 0 on the empty list, and lies in [0,1];
`recall_at_k` is (relevant among the first k) / min(k, length), 0 on the
empty list, and lies in [0,1]; `mrr_score` is the reciprocal 1-indexed rank
of the first relevant chunk and 0 when none is relevant. (With `k = 0` and a
nonempty list the Python code raises `ZeroDivisionError` instead, see the
counterexample.) -/
theorem metrics_contract (sim : String → String → ℚ) (query : String)
    (retrieved : List String) (k : ℕ) (t : ℚ) (hk : 1 ≤ k) :
    precision_at_k sim query retrieved k t =
      some (((retrieved.take k).countP (fun c => (is_relevant sim query c t).1) : ℚ) /
        (k : ℚ)) ∧
    (retrieved = [] → precision_at_k sim query retrieved k t = some 0) ∧
    (∃ p, precision_at_k sim query retrieved k t = some p ∧ 0 ≤ p ∧ p ≤ 1) ∧
    (retrieved ≠ [] → recall_at_k sim query retrieved k t =
      some (((retrieved.take k).countP (fun c => (is_relevant sim query c t).1) : ℚ) /
        ((min k retrieved.length : ℕ) : ℚ))) ∧
    (retrieved = [] → recall_at_k sim query retrieved k t = some 0) ∧
    (∃ r, recall_at_k sim query retrieved k t = some r ∧ 0 ≤ r ∧ r ≤ 1) ∧
    (retrieved.any (fun c => (is_relevant sim query c t).1) = false →
      mrr_score sim query retrieved t = 0) ∧
    (retrieved.any (fun c => (is_relevant sim query c t).1) = true →
      mrr_score sim query retrieved t =
        1 / ((retrieved.findIdx (fun c => (is_relevant sim query c t).1) : ℚ) + 1)) := by
  have hk0 : k ≠ 0 := by omega
  have hkq : (0 : ℚ) < (k : ℚ) := by
    exact_mod_cast Nat.pos_of_ne_zero hk0
  have hcount : ((retrieved.take k).countP (fun c => (is_relevant sim query c t).1)) ≤ k :=
    le_trans (List.countP_le_length _) (List.length_take_le _ _)
  have hprec : precision_at_k sim query retrieved k t =
      some (((retrieved.take k).countP (fun c => (is_relevant sim query c t).1) : ℚ) /
        (k : ℚ)) := by
    by_cases hr : retrieved = []
    · subst hr
      simp [precision_at_k]
    · simp [precision_at_k, hr, hk0]
  refine ⟨hprec, ?_, ?_, ?_, ?_, ?_, ?_, ?_⟩
  · intro hr
    subst hr
    simp [precision_at_k]
  · refine ⟨_, hprec, ?_, ?_⟩
    · positivity
    · rw [div_le_one hkq]
      exact_mod_cast hcount
  · intro hr
    simp [recall_at_k, hr, hk0, Nat.min_eq_zero_iff, List.length_eq_zero]
  · intro hr
    subst hr
    simp [recall_at_k]
  · by_cases hr : retrieved = []
    · subst hr
      exact ⟨0, by simp [recall_at_k], le_refl _, by norm_num⟩
    · have hlen : 0 < retrieved.length := List.length_pos.mpr hr
      have hmin : 0 < min k retrieved.length := by omega
      have hminq : (0 : ℚ) < ((min k retrieved.length : ℕ) : ℚ) := by
        exact_mod_cast hmin
      have hcount2 : ((retrieved.take k).countP (fun c => (is_relevant sim query c t).1)) ≤
          min k retrieved.length := by
        have := List.countP_le_length
          (l := retrieved.take k) (p := fun c => (is_relevant sim query c t).1)
        simpa [List.length_take] using this
      refine ⟨((retrieved.take k).countP (fun c => (is_relevant sim query c t).1) : ℚ) /
          ((min k retrieved.length : ℕ) : ℚ), ?_, ?_, ?_⟩
      · simp [recall_at_k, hr, hk0, Nat.min_eq_zero_iff, List.length_eq_zero]
      · positivity
      · rw [div_le_one hminq]
        exact_mod_cast hcount2
  · intro h
    exact (mrr_go_spec sim query t retrieved 1).1 h
  · intro h
    have := (mrr_go_spec sim query t retrieved 1).2 h
    simpa using this

/-- C8 witness: one relevant chunk with k = 1 gives precision 1. -/
theorem metrics_contract_witness :
    precision_at_k (fun _ _ => (1 : ℚ)) "q" ["c"] 1 0 = some 1 := by
  have h := (metrics_contract (fun _ _ => (1 : ℚ)) "q" ["c"] 1 0 (le_refl 1)).1
  rw [h]
  norm_num [is_relevant, List.countP_cons]

/-- C8 counterexample: with `k = 0` and a nonempty chunk list, the divisions
in `precision_at_k` and `recall_at_k` raise `ZeroDivisionError` in the
Python source (modelled by `none`), so neither returns a value in [0,1]. -/
theorem metrics_k_zero_division :
    precision_at_k (fun _ _ => (1 : ℚ)) "q" ["c"] 0 1 = none ∧
    recall_at_k (fun _ _ => (1 : ℚ)) "q" ["c"] 0 1 = none := by
  constructor <;> rfl

end RagChatbot

namespace RagChatbot

/-! ## Context builder claims -/

/-- Length of the separator appended after each included chunk. -/
theorem length_sep : ("\n\n" : String).length = 2 := rfl

/-- The accumulated context of `n` included chunks has length equal to the
sum of the chunk lengths plus two separator characters per chunk. -/
theorem joinSep_length : ∀ l : List String,
    (joinSep l).length = (l.map (fun s => s.length + 2)).sum := by
  intro l
  induction l with
  | nil => simp [joinSep]
  | cons c rest ih =>
    simp only [joinSep, String.length_append, length_sep, List.map_cons, List.sum_cons, ih]

/-- Characterization of the `build_smart_context` loop: starting from any
accumulated context, the result appends exactly the chunks counted by
`greedyCount` (each with its separator), where the count starts from the
current context length. -/
theorem build_go_spec (m : ℕ) : ∀ (chunks : List String) (ctx : String),
    build_smart_context_go m chunks ctx =
      ctx ++ joinSep (chunks.take (greedyCount m chunks ctx.length)) := by
  intro chunks
  induction chunks with
  | nil => intro ctx; simp [build_smart_context_go, greedyCount, joinSep]
  | cons c rest ih =>
    intro ctx
    by_cases h : m < ctx.length + c.length
    · simp [build_smart_context_go, greedyCount, h, joinSep]
    · have hrec := ih (ctx ++ c ++ "\n\n")
      have hlen : (ctx ++ c ++ "\n\n").length = ctx.length + c.length + 2 := by
        simp [String.length_append, length_sep]
      rw [hlen] at hrec
      simp only [build_smart_context_go, greedyCount, if_neg h, hrec]
      have : 1 + greedyCount m rest (ctx.length + c.length + 2) =
          greedyCount m rest (ctx.length + c.length + 2) + 1 := Nat.add_comm _ _
      rw [this, List.take_succ_cons]
      simp [joinSep, String.append_assoc]

/-- The number of chunks the builder includes never exceeds the number of
chunks available. -/
theorem greedyCount_le_length (m : ℕ) : ∀ (l : List String) (u : ℕ),
    greedyCount m l u ≤ l.length := by
  intro l
  induction l with
  | nil => intro u; simp [greedyCount]
  | cons c rest ih =>
    intro u
    by_cases h : m < u + c.length
    · simp [greedyCount, h]
    · simp only [greedyCount, if_neg h, List.length_cons]
      have := ih (u + c.length + 2)
      omega

/-- Once the running budget check fails at chunk `c`, the chunks after `c`
are never examined: the included count over `pre ++ c :: rest` equals the
included count over `pre` alone. -/
theorem greedyCount_append_break (m : ℕ) (c : String) (rest : List String) :
    ∀ (pre : List String) (u : ℕ),
    m < u + (pre.map (fun s => s.length + 2)).sum + c.length →
    greedyCount m (pre ++ c :: rest) u = greedyCount m pre u := by
  intro pre
  induction pre with
  | nil =>
    intro u h
    simp only [List.map_nil, List.sum_nil, Nat.add_zero] at h
    simp [greedyCount, h]
  | cons p ps ih =>
    intro u h
    simp only [List.map_cons, List.sum_cons] at h
    by_cases hp : m < u + p.length
    · simp [greedyCount, hp]
    · simp only [List.cons_append, greedyCount, if_neg hp]
      congr 1
      apply ih
      omega

/-- C9: the context builder output is always the full concatenation (with
separators) of a prefix of the ranked chunk list — a chunk is included
whole or not at all, never truncated; and on chunks of lengths
[1000, 1000, 1500] with a 3000-character budget exactly the first two
chunks are included. -/
theorem context_builder_whole_chunks (chunks : List String) (m : ℕ) :
    (∃ n, build_smart_context chunks m = joinSep (chunks.take n)) ∧
    (∀ s1 s2 s3 : String, s1.length = 1000 → s2.length = 1000 → s3.length = 1500 →
      build_smart_context [s1, s2, s3] 3000 = s1 ++ "\n\n" ++ s2 ++ "\n\n") := by
  constructor
  · refine ⟨greedyCount m chunks 0, ?_⟩
    have := build_go_spec m chunks ""
    simpa [build_smart_context] using this
  · intro s1 s2 s3 h1 h2 h3
    have hspec := build_go_spec 3000 [s1, s2, s3] ""
    have hg : greedyCount 3000 [s1, s2, s3] (("" : String).length) = 2 := by
      norm_num [greedyCount, h1, h2, h3]
    rw [hg] at hspec
    rw [build_smart_context, hspec]
    simp [joinSep, String.append_assoc]

/-- C10: the builder output is exactly the prefix counted by `greedyCount`
(whose accumulator charges each included chunk its length plus the
two-character separator); the accumulated context length is that sum; and
once a chunk fails the budget check, no later chunk is included — the
result over `pre ++ c :: rest` is the result over `pre` alone, for every
`rest`, whenever `c` cannot fit after `pre`. -/
theorem context_builder_stops_at_failure (m : ℕ) (chunks pre : List String)
    (c : String) (rest : List String) :
    build_smart_context chunks m = joinSep (chunks.take (greedyCount m chunks 0)) ∧
    (joinSep pre).length = (pre.map (fun s => s.length + 2)).sum ∧
    (m < (joinSep pre).length + c.length →
      build_smart_context (pre ++ c :: rest) m = build_smart_context pre m) := by
  refine ⟨?_, joinSep_length pre, ?_⟩
  · have := build_go_spec m chunks ""
    simpa [build_smart_context] using this
  · intro h
    rw [joinSep_length] at h
    have hbreak : greedyCount m (pre ++ c :: rest) 0 = greedyCount m pre 0 :=
      greedyCount_append_break m c rest pre 0 (by omega)
    have hle : greedyCount m pre 0 ≤ pre.length := greedyCount_le_length m pre 0
    have hz : ("" : String).length = 0 := rfl
    have e1 := build_go_spec m (pre ++ c :: rest) ""
    have e2 := build_go_spec m pre ""
    rw [hz] at e1 e2
    simp only [build_smart_context, e1, e2, String.empty_append]
    rw [hbreak]
    rw [List.take_append_eq_append_take]
    have : greedyCount m pre 0 - pre.length = 0 := by omega
    rw [this]
    simp

/-- C10 witness: with budget 5, a 2-character chunk is included (context
becomes 4 characters with its separator), a 10-character chunk then fails
the check, and the trailing 1-character chunk — which alone would still fit
(4 + 1 ≤ 5) — is nevertheless excluded. -/
theorem context_builder_stops_at_failure_witness :
    build_smart_context ["ab", "0123456789", "z"] 5 = "ab\n\n" := by
  have h := (context_builder_stops_at_failure 5 [] ["ab"] "0123456789" ["z"]).2.2
  have e : build_smart_context (["ab"] ++ "0123456789" :: ["z"]) 5 =
      build_smart_context ["ab"] 5 := by
    apply h
    decide
  have e2 : build_smart_context ["ab"] 5 = "ab\n\n" := rfl
  simpa [e2] using e

/-- C9 witness: instantiating the 1000/1000/1500 scenario with concrete
replicate strings. -/
theorem context_builder_whole_chunks_witness :
    build_smart_context
      [String.mk (List.replicate 1000 'a'), String.mk (List.replicate 1000 'b'),
        String.mk (List.replicate 1500 'c')] 3000 =
      String.mk (List.replicate 1000 'a') ++ "\n\n" ++
        String.mk (List.replicate 1000 'b') ++ "\n\n" := by
  apply (context_builder_whole_chunks [] 0).2
  · exact List.length_replicate 1000 'a'
  · exact List.length_replicate 1000 'b'
  · exact List.length_replicate 1500 'c'

end RagChatbot

namespace RagChatbot

/-! ## Pipeline branch characterizations -/

theorem mk_result_source (d a s : String) (m : Option Metrics) (e : List Event) :
    (mk_result d a s m e).source = s := rfl

theorem mk_result_answer (d a s : String) (m : Option Metrics) (e : List Event) :
    (mk_result d a s m e).answer = a := rfl

theorem mk_result_metrics (d a s : String) (m : Option Metrics) (e : List Event) :
    (mk_result d a s m e).metrics = m := rfl

theorem mk_result_events (d a s : String) (m : Option Metrics) (e : List Event) :
    (mk_result d a s m e).events = e := rfl

/-- The refusal branch of `ask_question`: a query classified `Other` returns
the fixed refusal message immediately. -/
theorem ask_question_other (env : Env) (query : String) (top_k : ℕ) (t : ℚ)
    (hdom : env.classify query = Domain.Other) :
    ask_question env query top_k t =
      { output := "🙂 This assistant only answers medical education and healthcare questions.",
        source := "", answer := "", metrics := none, events := [Event.classifyCall] } := by
  simp [ask_question, hdom]

/-- The direct web-search branch of `ask_question`: taken when the reranked
list is empty or the confidence gate on the raw scores says to fall back. -/
theorem ask_question_web (env : Env) (query : String) (top_k : ℕ) (t : ℚ)
    (retrieved : List String) (scores : List ℚ)
    (hdom : env.classify query ≠ Domain.Other)
    (hsearch : env.search query (DOMAIN_MAP (env.classify query)) top_k = (retrieved, scores))
    (hcond : ¬ ((if retrieved ≠ [] then rerank_chunks env.predict query retrieved top_k
        else []) ≠ [] ∧ should_fallback scores t = false)) :
    ask_question env query top_k t =
      mk_result (DOMAIN_MAP (env.classify query)) (web_fallback env query).1
        (web_fallback env query).2.1 none
        (([Event.classifyCall, Event.searchCall] ++
          (if retrieved ≠ [] then [Event.rerankCall] else [])) ++
          (web_fallback env query).2.2) := by
  simp only [ask_question, hsearch, if_neg hdom, if_neg hcond]

/-- The vector-DB branch of `ask_question`: taken when the reranked list is
nonempty and the confidence gate passes; generates a DB answer, computes the
metrics, and escalates to the web fallback exactly when the stripped,
lowercased answer is the sentinel. -/
theorem ask_question_db (env : Env) (query : String) (top_k : ℕ) (t : ℚ)
    (retrieved : List String) (scores : List ℚ)
    (hdom : env.classify query ≠ Domain.Other)
    (hsearch : env.search query (DOMAIN_MAP (env.classify query)) top_k = (retrieved, scores))
    (hcond : (if retrieved ≠ [] then rerank_chunks env.predict query retrieved top_k
        else []) ≠ [] ∧ should_fallback scores t = false) :
    ask_question env query top_k t =
      (if pyLower (pyStrip (env.generate_answer query (build_smart_context
          (if retrieved ≠ [] then rerank_chunks env.predict query retrieved top_k else [])
          3000))) = sentinelLower
       then
        mk_result (DOMAIN_MAP (env.classify query)) (web_fallback env query).1
          (web_fallback env query).2.1
          (some { precision := precision_at_k env.relSim query
                    (if retrieved ≠ [] then rerank_chunks env.predict query retrieved top_k
                      else []) top_k t,
                  recallK := recall_at_k env.relSim query
                    (if retrieved ≠ [] then rerank_chunks env.predict query retrieved top_k
                      else []) top_k t,
                  mrr := mrr_score env.relSim query
                    (if retrieved ≠ [] then rerank_chunks env.predict query retrieved top_k
                      else []) t })
          (([Event.classifyCall, Event.searchCall] ++
            (if retrieved ≠ [] then [Event.rerankCall] else [])) ++
            [Event.generateCall] ++ (web_fallback env query).2.2)
       else
        mk_result (DOMAIN_MAP (env.classify query))
          (env.generate_answer query (build_smart_context
            (if retrieved ≠ [] then rerank_chunks env.predict query retrieved top_k else [])
            3000))
          "Vector DB"
          (some { precision := precision_at_k env.relSim query
                    (if retrieved ≠ [] then rerank_chunks env.predict query retrieved top_k
                      else []) top_k t,
                  recallK := recall_at_k env.relSim query
                    (if retrieved ≠ [] then rerank_chunks env.predict query retrieved top_k
                      else []) top_k t,
                  mrr := mrr_score env.relSim query
                    (if retrieved ≠ [] then rerank_chunks env.predict query retrieved top_k
                      else []) t })
          (([Event.classifyCall, Event.searchCall] ++
            (if retrieved ≠ [] then [Event.rerankCall] else [])) ++
            [Event.generateCall])) := by
  simp only [ask_question, hsearch, if_neg hdom, if_pos hcond]

/-- The web fallback with a nonempty web result. -/
theorem web_fallback_nonempty (env : Env) (query : String)
    (h : tavily_search env query ≠ "") :
    web_fallback env query =
      (env.answer_from_web query (tavily_search env query), "Web Search",
        [Event.webSearchCall, Event.answerFromWebCall]) := by
  simp [web_fallback, h]

/-- The web fallback with an empty web result. -/
theorem web_fallback_empty (env : Env) (query : String)
    (h : tavily_search env query = "") :
    web_fallback env query =
      ("❌ I could not find any relevant information online.", "No Source",
        [Event.webSearchCall]) := by
  simp [web_fallback, h]

end RagChatbot

namespace RagChatbot

/-! ## Router claims -/

/-- C3: a query classified `Other` terminates with the fixed refusal
message, with the classifier as the only collaborator invoked: no retrieval,
no reranking, no answer generation, no web search. -/
theorem other_refused_no_calls (env : Env) (query : String) (top_k : ℕ) (t : ℚ)
    (hdom : env.classify query = Domain.Other) :
    (ask_question env query top_k t).output =
      "🙂 This assistant only answers medical education and healthcare questions." ∧
    (ask_question env query top_k t).events = [Event.classifyCall] ∧
    Event.searchCall ∉ (ask_question env query top_k t).events ∧
    Event.rerankCall ∉ (ask_question env query top_k t).events ∧
    Event.generateCall ∉ (ask_question env query top_k t).events ∧
    Event.webSearchCall ∉ (ask_question env query top_k t).events ∧
    Event.answerFromWebCall ∉ (ask_question env query top_k t).events := by
  rw [ask_question_other env query top_k t hdom]
  refine ⟨rfl, rfl, ?_, ?_, ?_, ?_, ?_⟩ <;> decide

/-- Concrete environment whose classifier refuses every query. -/
def envOther : Env where
  classify := fun _ => Domain.Other
  search := fun _ _ _ => ([], [])
  predict := fun _ _ => 0
  generate_answer := fun _ _ => ""
  tavily := fun _ => Except.ok []
  answer_from_web := fun _ _ => ""
  relSim := fun _ _ => 0

/-- C3 witness: a concrete refused run records only the classifier call. -/
theorem other_refused_no_calls_witness :
    (ask_question envOther "hello" 6 (2/5)).events = [Event.classifyCall] :=
  (other_refused_no_calls envOther "hello" 6 (2/5) rfl).2.1

/-- The confidence gate is true exactly when the score list is empty or
every score (equivalently, the maximum) is below the threshold. -/
theorem should_fallback_iff (ss : List ℚ) (t2 : ℚ) :
    should_fallback ss t2 = true ↔ ss = [] ∨ ∀ s ∈ ss, s < t2 := by
  cases ss with
  | nil => simp [should_fallback]
  | cons s rest =>
    simp only [should_fallback, decide_eq_true_eq, List.cons_ne_nil, false_or]
    constructor
    · intro h
      have : ∀ (l : List ℚ) (a : ℚ), l.foldl max a < t2 → a < t2 ∧ ∀ x ∈ l, x < t2 := by
        intro l
        induction l with
        | nil => intro a ha; simpa using ha
        | cons r rs ih =>
          intro a ha
          simp only [List.foldl_cons] at ha
          have := ih (max a r) ha
          rw [max_lt_iff] at this
          refine ⟨this.1.1, ?_⟩
          intro x hx
          rcases List.mem_cons.mp hx with hx | hx
          · exact hx ▸ this.1.2
          · exact this.2 x hx
      have h2 := this rest s h
      intro x hx
      rcases List.mem_cons.mp hx with hx | hx
      · exact hx ▸ h2.1
      · exact h2.2 x hx
    · intro h
      have : ∀ (l : List ℚ) (a : ℚ), a < t2 → (∀ x ∈ l, x < t2) → l.foldl max a < t2 := by
        intro l
        induction l with
        | nil => intro a ha _; simpa using ha
        | cons r rs ih =>
          intro a ha hl
          simp only [List.foldl_cons]
          exact ih (max a r) (max_lt ha (hl r (List.mem_cons_self r rs)))
            (fun x hx => hl x (List.mem_cons_of_mem r hx))
      exact this rest s (h s (List.mem_cons_self s rest))
        (fun x hx => h x (List.mem_cons_of_mem s hx))

/-- C1: for a run whose domain is not Other, the direct web-search path
(web search invoked without any DB answer generation) is taken exactly when
the reranked list is empty or `should_fallback` holds on the raw retriever
scores; the vector-DB answer path (answer generation invoked) is taken
exactly otherwise; and `should_fallback(scores, threshold)` is true exactly
when the scores are empty or all below the threshold. -/
theorem routing_confidence_gate (env : Env) (query : String) (top_k : ℕ) (t : ℚ)
    (retrieved : List String) (scores : List ℚ)
    (hdom : env.classify query ≠ Domain.Other)
    (hsearch : env.search query (DOMAIN_MAP (env.classify query)) top_k = (retrieved, scores)) :
    ((Event.generateCall ∉ (ask_question env query top_k t).events ∧
      Event.webSearchCall ∈ (ask_question env query top_k t).events) ↔
      ((if retrieved ≠ [] then rerank_chunks env.predict query retrieved top_k else []) = [] ∨
        should_fallback scores t = true)) ∧
    ((Event.generateCall ∈ (ask_question env query top_k t).events) ↔
      ¬ ((if retrieved ≠ [] then rerank_chunks env.predict query retrieved top_k else []) = [] ∨
        should_fallback scores t = true)) ∧
    (∀ (ss : List ℚ) (t2 : ℚ),
      should_fallback ss t2 = true ↔ ss = [] ∨ ∀ s ∈ ss, s < t2) := by
  have hsimp : ¬ ((if retrieved ≠ [] then rerank_chunks env.predict query retrieved top_k
      else []) ≠ [] ∧ should_fallback scores t = false) ↔
      ((if retrieved ≠ [] then rerank_chunks env.predict query retrieved top_k else []) = [] ∨
        should_fallback scores t = true) := by
    simp only [ne_eq, not_and_or, not_not, Bool.not_eq_false]
  by_cases hcond : (if retrieved ≠ [] then rerank_chunks env.predict query retrieved top_k
      else []) ≠ [] ∧ should_fallback scores t = false
  · have hRHS : ¬ ((if retrieved ≠ [] then rerank_chunks env.predict query retrieved top_k
        else []) = [] ∨ should_fallback scores t = true) :=
      fun h => (hsimp.mpr h) hcond
    have hgen : Event.generateCall ∈ (ask_question env query top_k t).events := by
      rw [ask_question_db env query top_k t retrieved scores hdom hsearch hcond]
      by_cases hsent : pyLower (pyStrip (env.generate_answer query (build_smart_context
          (if retrieved ≠ [] then rerank_chunks env.predict query retrieved top_k else [])
          3000))) = sentinelLower
      · rw [if_pos hsent]
        simp [mk_result_events]
      · rw [if_neg hsent]
        simp [mk_result_events]
    exact ⟨iff_of_false (fun hl => hl.1 hgen) hRHS, iff_of_true hgen hRHS,
      should_fallback_iff⟩
  · have hRHS : ((if retrieved ≠ [] then rerank_chunks env.predict query retrieved top_k
        else []) = [] ∨ should_fallback scores t = true) := hsimp.mp hcond
    rw [ask_question_web env query top_k t retrieved scores hdom hsearch hcond]
    have hgen : Event.generateCall ∉
        (mk_result (DOMAIN_MAP (env.classify query)) (web_fallback env query).1
          (web_fallback env query).2.1 none
          (([Event.classifyCall, Event.searchCall] ++
            (if retrieved ≠ [] then [Event.rerankCall] else [])) ++
            (web_fallback env query).2.2)).events := by
      by_cases hweb : tavily_search env query = ""
      · rw [web_fallback_empty env query hweb]
        by_cases hr : retrieved ≠ [] <;> simp [mk_result_events, hr]
      · rw [web_fallback_nonempty env query hweb]
        by_cases hr : retrieved ≠ [] <;> simp [mk_result_events, hr]
    have hwebmem : Event.webSearchCall ∈
        (mk_result (DOMAIN_MAP (env.classify query)) (web_fallback env query).1
          (web_fallback env query).2.1 none
          (([Event.classifyCall, Event.searchCall] ++
            (if retrieved ≠ [] then [Event.rerankCall] else [])) ++
            (web_fallback env query).2.2)).events := by
      by_cases hweb : tavily_search env query = ""
      · rw [web_fallback_empty env query hweb]
        simp [mk_result_events]
      · rw [web_fallback_nonempty env query hweb]
        simp [mk_result_events]
    exact ⟨iff_of_true ⟨hgen, hwebmem⟩ hRHS,
      iff_of_false hgen (not_not_intro hRHS), should_fallback_iff⟩

/-- Concrete environment for a confident vector-DB run. -/
def envW : Env where
  classify := fun _ => Domain.Education
  search := fun _ _ _ => (["c"], [1])
  predict := fun _ _ => 0
  generate_answer := fun _ _ => "an answer"
  tavily := fun _ => Except.ok []
  answer_from_web := fun _ _ => ""
  relSim := fun _ _ => 0

/-- C1 witness: a concrete confident run takes the vector-DB path. -/
theorem routing_confidence_gate_witness :
    Event.generateCall ∈ (ask_question envW "q" 6 0).events ↔
      ¬ ((if (["c"] : List String) ≠ [] then rerank_chunks envW.predict "q" ["c"] 6
          else []) = [] ∨ should_fallback [1] 0 = true) :=
  (routing_confidence_gate envW "q" 6 0 ["c"] [1] (by decide) rfl).2.1

end RagChatbot

namespace RagChatbot

/-- Reranking a single chunk with a positive top_k returns that chunk. -/
theorem rerank_singleton (predict : String → String → ℚ) (query a : String)
    (top_k : ℕ) (h : top_k ≠ 0) :
    rerank_chunks predict query [a] top_k = [a] := by
  unfold rerank_chunks
  rw [List.mergeSort_singleton]
  cases top_k with
  | zero => exact absurd rfl h
  | succ n => simp

/-- C4 amended: on the vector-DB branch the router escalates to web search
exactly when the generated answer, after stripping surrounding whitespace
and lowercasing, equals the sentinel; the escalation reuses the same query
without re-running classification or retrieval (both stay at one call), and
the source tag becomes Web Search with the web answer when the web search
returns text, or No Source with the fixed message when it returns nothing;
without the sentinel the run stays on the Vector DB source with the
generated answer. -/
theorem sentinel_escalation (env : Env) (query : String) (top_k : ℕ) (t : ℚ)
    (retrieved : List String) (scores : List ℚ)
    (hdom : env.classify query ≠ Domain.Other)
    (hsearch : env.search query (DOMAIN_MAP (env.classify query)) top_k = (retrieved, scores))
    (hcond : (if retrieved ≠ [] then rerank_chunks env.predict query retrieved top_k
        else []) ≠ [] ∧ should_fallback scores t = false) :
    (pyLower (pyStrip (env.generate_answer query (build_smart_context
        (if retrieved ≠ [] then rerank_chunks env.predict query retrieved top_k else [])
        3000))) = sentinelLower →
      Event.webSearchCall ∈ (ask_question env query top_k t).events ∧
      ((ask_question env query top_k t).events).count Event.classifyCall = 1 ∧
      ((ask_question env query top_k t).events).count Event.searchCall = 1 ∧
      (tavily_search env query ≠ "" →
        (ask_question env query top_k t).source = "Web Search" ∧
        (ask_question env query top_k t).answer =
          env.answer_from_web query (tavily_search env query)) ∧
      (tavily_search env query = "" →
        (ask_question env query top_k t).source = "No Source" ∧
        (ask_question env query top_k t).answer =
          "❌ I could not find any relevant information online.")) ∧
    (pyLower (pyStrip (env.generate_answer query (build_smart_context
        (if retrieved ≠ [] then rerank_chunks env.predict query retrieved top_k else [])
        3000))) ≠ sentinelLower →
      Event.webSearchCall ∉ (ask_question env query top_k t).events ∧
      (ask_question env query top_k t).source = "Vector DB" ∧
      (ask_question env query top_k t).answer =
        env.generate_answer query (build_smart_context
          (if retrieved ≠ [] then rerank_chunks env.predict query retrieved top_k else [])
          3000)) := by
  rw [ask_question_db env query top_k t retrieved scores hdom hsearch hcond]
  constructor
  · intro hsent
    rw [if_pos hsent]
    by_cases hweb : tavily_search env query = ""
    · rw [web_fallback_empty env query hweb]
      refine ⟨?_, ?_, ?_, fun h => absurd hweb h, fun _ => ⟨rfl, rfl⟩⟩
      · simp [mk_result_events]
      · by_cases hr : retrieved ≠ [] <;> simp [mk_result_events, hr]
      · by_cases hr : retrieved ≠ [] <;> simp [mk_result_events, hr]
    · rw [web_fallback_nonempty env query hweb]
      refine ⟨?_, ?_, ?_, fun _ => ⟨rfl, rfl⟩, fun h => absurd h hweb⟩
      · simp [mk_result_events]
      · by_cases hr : retrieved ≠ [] <;> simp [mk_result_events, hr]
      · by_cases hr : retrieved ≠ [] <;> simp [mk_result_events, hr]
  · intro hsent
    rw [if_neg hsent]
    refine ⟨?_, rfl, rfl⟩
    by_cases hr : retrieved ≠ [] <;> simp [mk_result_events, hr]

/-- Concrete environment whose answer generator returns exactly the
sentinel, with a nonempty web result available. -/
def envSentinel : Env where
  classify := fun _ => Domain.Healthcare
  search := fun _ _ _ => (["chunk one"], [1])
  predict := fun _ _ => 0
  generate_answer := fun _ _ => "I could not find this in uploaded PDFs."
  tavily := fun _ => Except.ok ["web info"]
  answer_from_web := fun _ _ => "web answer"
  relSim := fun _ _ => 0

/-- C4 witness: a concrete DB-branch run whose generated answer is exactly
the sentinel escalates to web search. -/
theorem sentinel_escalation_witness :
    Event.webSearchCall ∈ (ask_question envSentinel "q" 6 0).events := by
  have hcond : (if (["chunk one"] : List String) ≠ [] then
      rerank_chunks envSentinel.predict "q" ["chunk one"] 6 else []) ≠ [] ∧
      should_fallback [1] 0 = false := by
    refine ⟨?_, rfl⟩
    rw [if_pos (by decide : (["chunk one"] : List String) ≠ [])]
    rw [rerank_singleton envSentinel.predict "q" "chunk one" 6 (by decide)]
    decide
  have h := (sentinel_escalation envSentinel "q" 6 0 ["chunk one"] [1]
      (by decide) rfl hcond).1
  apply (h ?_).1
  rw [if_pos (by decide : (["chunk one"] : List String) ≠ [])]
  rw [rerank_singleton envSentinel.predict "q" "chunk one" 6 (by decide)]
  decide

end RagChatbot

namespace RagChatbot

/-- Concrete environment whose answer generator returns the sentinel with a
trailing newline: not case-insensitively equal to the sentinel, but equal
after stripping. -/
def envA : Env where
  classify := fun _ => Domain.Healthcare
  search := fun _ _ _ => (["chunk one"], [1])
  predict := fun _ _ => 0
  generate_answer := fun _ _ => "I could not find this in uploaded PDFs.\n"
  tavily := fun _ => Except.ok ["web info"]
  answer_from_web := fun _ _ => "web answer"
  relSim := fun _ _ => 0

/-- C4 counterexample: the generated answer with a trailing newline is not
case-insensitively equal to the sentinel (so under the claim as stated no
escalation should occur), yet the router escalates to web search: the
comparison in the source strips surrounding whitespace first. -/
theorem sentinel_escalation_counterexample :
    pyLower "I could not find this in uploaded PDFs.\n" ≠
      pyLower "I could not find this in uploaded PDFs." ∧
    envA.generate_answer "q" (build_smart_context
      (rerank_chunks envA.predict "q" ["chunk one"] 6) 3000) =
      "I could not find this in uploaded PDFs.\n" ∧
    Event.webSearchCall ∈ (ask_question envA "q" 6 0).events ∧
    (ask_question envA "q" 6 0).source = "Web Search" := by
  have hrr : (if (["chunk one"] : List String) ≠ [] then
      rerank_chunks envA.predict "q" ["chunk one"] 6 else []) = ["chunk one"] := by
    rw [if_pos (by decide : (["chunk one"] : List String) ≠ [])]
    exact rerank_singleton envA.predict "q" "chunk one" 6 (by decide)
  have hcond : (if (["chunk one"] : List String) ≠ [] then
      rerank_chunks envA.predict "q" ["chunk one"] 6 else []) ≠ [] ∧
      should_fallback [1] 0 = false := by
    rw [hrr]
    exact ⟨by decide, rfl⟩
  have hrun := ask_question_db envA "q" 6 0 ["chunk one"] [1] (by decide) rfl hcond
  rw [hrr] at hrun
  rw [if_pos (by decide : pyLower (pyStrip (envA.generate_answer "q"
      (build_smart_context ["chunk one"] 3000))) = sentinelLower)] at hrun
  rw [web_fallback_nonempty envA "q" (by decide)] at hrun
  refine ⟨by decide, ?_, ?_, ?_⟩
  · rw [rerank_singleton envA.predict "q" "chunk one" 6 (by decide)]
    rfl
  · rw [hrun]
    simp [mk_result_events]
  · rw [hrun]
    rfl

/-- C5 amended: a transport error from the web-search client is caught
inside `tavily_search`, which returns the empty string; the pipeline run is
therefore identical to a run in which the web search succeeded with an
empty result list — the error is absorbed into the content-based
degradations (No Source message), never propagated to the caller. -/
theorem web_error_absorbed (env : Env) (query : String) (top_k : ℕ) (t : ℚ)
    (msg : String) (herr : env.tavily query = Except.error msg) :
    tavily_search env query = "" ∧
    ask_question env query top_k t =
      ask_question { env with tavily := fun _ => Except.ok [] } query top_k t := by
  have htv : tavily_search env query = "" := by
    simp [tavily_search, herr]
  have htv2 : tavily_search { env with tavily := fun _ => Except.ok [] } query = "" := by
    simp [tavily_search]
  refine ⟨htv, ?_⟩
  have hwf : web_fallback { env with tavily := fun _ => Except.ok [] } query =
      web_fallback env query := by
    rw [web_fallback_empty env query htv,
      web_fallback_empty { env with tavily := fun _ => Except.ok [] } query htv2]
  by_cases hdom : env.classify query = Domain.Other
  · rw [ask_question_other env query top_k t hdom,
      ask_question_other { env with tavily := fun _ => Except.ok [] } query top_k t hdom]
  · cases hres : env.search query (DOMAIN_MAP (env.classify query)) top_k with
    | mk retrieved scores =>
      have hres2 : ({ env with tavily := fun _ => Except.ok [] } : Env).search query
          (DOMAIN_MAP (({ env with tavily := fun _ => Except.ok [] } : Env).classify query))
          top_k = (retrieved, scores) := hres
      by_cases hcond : (if retrieved ≠ [] then
          rerank_chunks env.predict query retrieved top_k else []) ≠ [] ∧
          should_fallback scores t = false
      · rw [ask_question_db env query top_k t retrieved scores hdom hres hcond,
          ask_question_db { env with tavily := fun _ => Except.ok [] } query top_k t
            retrieved scores hdom hres2 hcond,
          hwf]
      · rw [ask_question_web env query top_k t retrieved scores hdom hres hcond,
          ask_question_web { env with tavily := fun _ => Except.ok [] } query top_k t
            retrieved scores hdom hres2 hcond,
          hwf]

/-- Concrete environment whose web-search client raises a transport error,
with empty retrieval so the run takes the direct web path. -/
def envErr : Env where
  classify := fun _ => Domain.Healthcare
  search := fun _ _ _ => ([], [])
  predict := fun _ _ => 0
  generate_answer := fun _ _ => ""
  tavily := fun _ => Except.error "boom"
  answer_from_web := fun _ _ => ""
  relSim := fun _ _ => 0

/-- C5 counterexample: with the web-search client raising a transport
error, the pipeline does not propagate any error — it completes normally,
terminating in No Source with the fixed message. -/
theorem web_error_not_propagated :
    envErr.tavily "q" = Except.error "boom" ∧
    (ask_question envErr "q" 6 0).source = "No Source" ∧
    (ask_question envErr "q" 6 0).answer =
      "❌ I could not find any relevant information online." := by
  refine ⟨rfl, ?_, ?_⟩ <;> rfl

/-- C5 witness: the error-absorption theorem at the concrete erroring
environment. -/
theorem web_error_absorbed_witness :
    tavily_search envErr "q" = "" ∧
    ask_question envErr "q" 6 0 =
      ask_question { envErr with tavily := fun _ => Except.ok [] } "q" 6 0 :=
  web_error_absorbed envErr "q" 6 0 "boom" rfl

end RagChatbot

namespace RagChatbot

/-- Changing the evaluator similarity oracle (the only input of the metric
computations) changes nothing about the terminal state, the answer, or the
calls made: the metrics never influence routing. -/
theorem ask_question_relSim_invariant (env : Env) (sim2 : String → String → ℚ)
    (query : String) (top_k : ℕ) (t : ℚ) :
    (ask_question { env with relSim := sim2 } query top_k t).source =
      (ask_question env query top_k t).source ∧
    (ask_question { env with relSim := sim2 } query top_k t).answer =
      (ask_question env query top_k t).answer ∧
    (ask_question { env with relSim := sim2 } query top_k t).events =
      (ask_question env query top_k t).events := by
  have hwf : web_fallback { env with relSim := sim2 } query = web_fallback env query := rfl
  by_cases hdom : env.classify query = Domain.Other
  · rw [ask_question_other env query top_k t hdom,
      ask_question_other { env with relSim := sim2 } query top_k t hdom]
    exact ⟨rfl, rfl, rfl⟩
  · cases hres : env.search query (DOMAIN_MAP (env.classify query)) top_k with
    | mk retrieved scores =>
      have hres2 : ({ env with relSim := sim2 } : Env).search query
          (DOMAIN_MAP (({ env with relSim := sim2 } : Env).classify query)) top_k =
          (retrieved, scores) := hres
      by_cases hcond : (if retrieved ≠ [] then
          rerank_chunks env.predict query retrieved top_k else []) ≠ [] ∧
          should_fallback scores t = false
      · rw [ask_question_db env query top_k t retrieved scores hdom hres hcond,
          ask_question_db { env with relSim := sim2 } query top_k t retrieved scores
            hdom hres2 hcond]
        dsimp only
        rw [hwf]
        by_cases hsent : pyLower (pyStrip (env.generate_answer query (build_smart_context
            (if retrieved ≠ [] then rerank_chunks env.predict query retrieved top_k else [])
            3000))) = sentinelLower
        · rw [if_pos hsent, if_pos hsent]
          exact ⟨rfl, rfl, rfl⟩
        · rw [if_neg hsent, if_neg hsent]
          exact ⟨rfl, rfl, rfl⟩
      · rw [ask_question_web env query top_k t retrieved scores hdom hres hcond,
          ask_question_web { env with relSim := sim2 } query top_k t retrieved scores
            hdom hres2 hcond]
        dsimp only
        rw [hwf]
        exact ⟨rfl, rfl, rfl⟩

/-- C6 amended: the retrieval metrics are computed exactly on runs entering
the vector-DB answer branch — including runs that afterwards escalate to
Web Search or No Source through the sentinel — always from the reranked
chunk list; on the direct web path they are not computed at all; and they
never influence the terminal state, the answer, or the calls made. -/
theorem metrics_diagnostic_only (env : Env) (query : String) (top_k : ℕ) (t : ℚ)
    (retrieved : List String) (scores : List ℚ) (sim2 : String → String → ℚ)
    (hdom : env.classify query ≠ Domain.Other)
    (hsearch : env.search query (DOMAIN_MAP (env.classify query)) top_k = (retrieved, scores)) :
    ((if retrieved ≠ [] then rerank_chunks env.predict query retrieved top_k else []) ≠ [] ∧
      should_fallback scores t = false →
      (ask_question env query top_k t).metrics = some
        { precision := precision_at_k env.relSim query
            (if retrieved ≠ [] then rerank_chunks env.predict query retrieved top_k else [])
            top_k t,
          recallK := recall_at_k env.relSim query
            (if retrieved ≠ [] then rerank_chunks env.predict query retrieved top_k else [])
            top_k t,
          mrr := mrr_score env.relSim query
            (if retrieved ≠ [] then rerank_chunks env.predict query retrieved top_k else [])
            t }) ∧
    (¬ ((if retrieved ≠ [] then rerank_chunks env.predict query retrieved top_k else []) ≠ [] ∧
      should_fallback scores t = false) →
      (ask_question env query top_k t).metrics = none) ∧
    ((ask_question { env with relSim := sim2 } query top_k t).source =
      (ask_question env query top_k t).source ∧
    (ask_question { env with relSim := sim2 } query top_k t).answer =
      (ask_question env query top_k t).answer ∧
    (ask_question { env with relSim := sim2 } query top_k t).events =
      (ask_question env query top_k t).events) := by
  refine ⟨?_, ?_, ask_question_relSim_invariant env sim2 query top_k t⟩
  · intro hcond
    rw [ask_question_db env query top_k t retrieved scores hdom hsearch hcond]
    by_cases hsent : pyLower (pyStrip (env.generate_answer query (build_smart_context
        (if retrieved ≠ [] then rerank_chunks env.predict query retrieved top_k else [])
        3000))) = sentinelLower
    · rw [if_pos hsent]
      rfl
    · rw [if_neg hsent]
      rfl
  · intro hcond
    rw [ask_question_web env query top_k t retrieved scores hdom hsearch hcond]
    rfl

/-- C6 counterexample: a run that terminates in the Web Search state (after
the sentinel escalation) has nevertheless computed the retrieval metrics —
they are computed on entry to the DB branch, before the sentinel check, not
only on runs that terminate in the DB answer state. -/
theorem metrics_computed_on_escalated_run :
    (ask_question envSentinel "q" 6 0).source = "Web Search" ∧
    (ask_question envSentinel "q" 6 0).metrics ≠ none := by
  have hrr : (if (["chunk one"] : List String) ≠ [] then
      rerank_chunks envSentinel.predict "q" ["chunk one"] 6 else []) = ["chunk one"] := by
    rw [if_pos (by decide : (["chunk one"] : List String) ≠ [])]
    exact rerank_singleton envSentinel.predict "q" "chunk one" 6 (by decide)
  have hcond : (if (["chunk one"] : List String) ≠ [] then
      rerank_chunks envSentinel.predict "q" ["chunk one"] 6 else []) ≠ [] ∧
      should_fallback [1] 0 = false := by
    rw [hrr]
    exact ⟨by decide, rfl⟩
  have hrun := ask_question_db envSentinel "q" 6 0 ["chunk one"] [1] (by decide) rfl hcond
  rw [hrr] at hrun
  rw [if_pos (by decide : pyLower (pyStrip (envSentinel.generate_answer "q"
      (build_smart_context ["chunk one"] 3000))) = sentinelLower)] at hrun
  rw [web_fallback_nonempty envSentinel "q" (by decide)] at hrun
  rw [hrun]
  exact ⟨rfl, by simp [mk_result_metrics]⟩

/-- C6 witness: on the concrete confident vector-DB run the metrics are the
triple computed from the reranked list. -/
theorem metrics_diagnostic_only_witness :
    (ask_question envW "q" 6 0).metrics = some
      { precision := precision_at_k envW.relSim "q"
          (if (["c"] : List String) ≠ [] then rerank_chunks envW.predict "q" ["c"] 6 else [])
          6 0,
        recallK := recall_at_k envW.relSim "q"
          (if (["c"] : List String) ≠ [] then rerank_chunks envW.predict "q" ["c"] 6 else [])
          6 0,
        mrr := mrr_score envW.relSim "q"
          (if (["c"] : List String) ≠ [] then rerank_chunks envW.predict "q" ["c"] 6 else [])
          0 } := by
  have hcond : (if (["c"] : List String) ≠ [] then
      rerank_chunks envW.predict "q" ["c"] 6 else []) ≠ [] ∧
      should_fallback [1] 0 = false := by
    rw [if_pos (by decide : (["c"] : List String) ≠ [])]
    rw [rerank_singleton envW.predict "q" "c" 6 (by decide)]
    exact ⟨by decide, rfl⟩
  exact (metrics_diagnostic_only envW "q" 6 0 ["c"] [1] envW.relSim (by decide) rfl).1 hcond

end RagChatbot
